import Mathlib

/-!
Shallow embedding of the client-side cart logic of the kroger-mcp web UI
(src/static/js/cart.js, with the quantity stepper of src/static/js/products.js).

Prices are JavaScript numbers in the source; every price in the claims
(5.00, 4.00, ...) is exactly representable in binary64 and all arithmetic
here stays exact, so prices are embedded as rationals.  JavaScript
falsy-coalescing (`x || d`) on the relevant fields is embedded explicitly:
an absent field is `none`, and the falsy values of each type (0 for
numbers, the empty string for strings) are coalesced exactly as the
source does.
-/

/-- Pricing record of a cart item as delivered by GET /cart/view.
Fields may be absent; the source reads them with `pricing.regular_price || 0`
and `pricing.sale_price || regularPrice`. -/
structure Pricing where
  regular_price : Option ℚ
  sale_price : Option ℚ
  on_sale : Bool
  deriving DecidableEq

/-- Cart item as delivered by GET /cart/view (fields the cart logic reads). -/
structure CartItem where
  product_id : String
  quantity : Option Nat
  modality : Option String
  pricing : Option Pricing
  deriving DecidableEq

/-- The empty pricing object used for `item.pricing || \x7b\x7d`. -/
def emptyPricing : Pricing := ⟨none, none, false⟩

/-- Effective pricing record: `const pricing = item.pricing || \x7b\x7d`. -/
def effPricing (i : CartItem) : Pricing := i.pricing.getD emptyPricing

/-- Effective regular price: `const regularPrice = pricing.regular_price || 0`.
(When the field holds 0 the JavaScript coalescing also yields 0, so `getD 0`
is extensionally exact.) -/
def effRegular (p : Pricing) : ℚ := p.regular_price.getD 0

/-- Effective sale price: `const salePrice = pricing.sale_price || regularPrice`
(absent or 0 sale price falls back to the regular price). -/
def effSale (p : Pricing) : ℚ :=
  match p.sale_price with
  | none => effRegular p
  | some s => if s = 0 then effRegular p else s

/-- Effective quantity: `const quantity = item.quantity || 1`
(absent or 0 quantity is read as 1). -/
def effQuantity (i : CartItem) : Nat :=
  match i.quantity with
  | none => 1
  | some 0 => 1
  | some q => q

/-- Effective modality: `item.modality || 'PICKUP'`
(absent or empty modality is read as PICKUP). -/
def effModality (i : CartItem) : String :=
  match i.modality with
  | none => "PICKUP"
  | some m => if m = "" then "PICKUP" else m

/-- Contribution of one item to the subtotal accumulator in renderCart:
`subtotal += salePrice * quantity`. -/
def itemSubtotal (i : CartItem) : ℚ :=
  effSale (effPricing i) * (effQuantity i : ℚ)

/-- Contribution of one item to the savings accumulator in renderCart:
`if (pricing.on_sale) savings += (regularPrice - salePrice) * quantity`. -/
def itemSavings (i : CartItem) : ℚ :=
  if (effPricing i).on_sale then
    (effRegular (effPricing i) - effSale (effPricing i)) * (effQuantity i : ℚ)
  else 0

/-- Subtotal accumulated over a list of (already filtered) cart items. -/
def cartSubtotal (items : List CartItem) : ℚ := (items.map itemSubtotal).sum

/-- Savings accumulated over a list of (already filtered) cart items. -/
def cartSavings (items : List CartItem) : ℚ := (items.map itemSavings).sum

/-- Predicate used both by the auto-reset check and by the filtering step of
renderCart: an item matches filter value PICKUP or DELIVERY through its
effective modality, and matches any other filter value vacuously. -/
def itemMatchesFilter (filter : String) (i : CartItem) : Bool :=
  if filter = "PICKUP" then effModality i == "PICKUP"
  else if filter = "DELIVERY" then effModality i == "DELIVERY"
  else true

/-- Filtering step of renderCart: `cartItems = allCartItems` narrowed when the
current filter is PICKUP or DELIVERY, comparing `item.modality || 'PICKUP'`. -/
def applyFilter (filter : String) (allItems : List CartItem) : List CartItem :=
  if filter = "PICKUP" then allItems.filter (fun i => effModality i == "PICKUP")
  else if filter = "DELIVERY" then allItems.filter (fun i => effModality i == "DELIVERY")
  else allItems

/-- The four numbers renderCart derives and displays in the order summary:
item count `cartItems.length`, the subtotal, the savings, and the displayed
Estimated Total `subtotal - savings`. -/
structure Totals where
  itemCount : Nat
  subtotal : ℚ
  savings : ℚ
  total : ℚ
  deriving DecidableEq

/-- Totals computation of renderCart over the items matching the given filter:
the filtered list feeds the two accumulators, and the displayed total is
`(subtotal - savings)` exactly as printed at the Estimated Total row. -/
def computeTotals (filter : String) (allItems : List CartItem) : Totals :=
  let items := applyFilter filter allItems
  { itemCount := items.length
    subtotal := cartSubtotal items
    savings := cartSavings items
    total := cartSubtotal items - cartSavings items }

/-- Componentwise sum of two totals records. -/
def addTotals (a b : Totals) : Totals :=
  ⟨a.itemCount + b.itemCount, a.subtotal + b.subtotal,
   a.savings + b.savings, a.total + b.total⟩

/-- The concrete cart item of the C1 scenario: regular price 5.00, sale price
4.00, on sale, quantity 2. -/
def c1Item : CartItem :=
  ⟨"0001111042248", some 2, some "PICKUP", some ⟨some 5, some 4, true⟩⟩

/-- Modality flip of toggleItemModality:
`const newModality = currentModality === 'PICKUP' ? 'DELIVERY' : 'PICKUP'`. -/
def flipModality (m : String) : String :=
  if m = "PICKUP" then "DELIVERY" else "PICKUP"

/-- Observable state after a modality toggle settles. -/
structure ModalityToggleResult where
  displayedModality : String
  serverModality : String
  attemptsMade : Nat
  deriving DecidableEq

/-- Run of toggleItemModality followed by updateCartItemModality, as a function
of the pre-mutation modality and of whether the single POST
/cart/update-modality request succeeds.  From the source: the fulfillment icon
is optimistically set to the flipped modality before the request; the request
is issued once, with no retry wrapper; on success viewCart re-renders from the
server (which now holds the new modality); on failure (non-success response or
thrown error) only a toast is shown — no revert of the icon and no re-render
occurs, so the displayed modality stays at the flipped value while the server
keeps the pre-mutation value. -/
def toggleItemModalityRun (currentModality : String) (netSuccess : Bool) :
    ModalityToggleResult :=
  let newModality := flipModality currentModality
  if netSuccess then
    { displayedModality := newModality, serverModality := newModality, attemptsMade := 1 }
  else
    { displayedModality := newModality, serverModality := currentModality, attemptsMade := 1 }

/-- Modelled from the spec: the server side of POST /cart/update-quantity (the
Flask/MCP Python server of this repository) is not under src/; only its client
is.  The spec states the stored quantity is clamped by the server to the
interval from 1 to 99. -/
def serverStoreQuantity (requested : ℤ) : ℤ :=
  max 1 (min 99 requested)

/-- Quantity carried by the network call of the cart set-quantity path: the
debounced update sends the requested quantity unchanged in the request body
(`quantity: newQuantity`), so the quantity stored after the operation is the
server clamp of the requested value. -/
def setQuantityStored (requested : ℤ) : ℤ :=
  serverStoreQuantity requested

/-- Quantity clamp of the product-details stepper in products.js:
`value = Math.max(1, Math.min(99, value))`. -/
def updateQuantityClamp (value : ℤ) : ℤ :=
  max 1 (min 99 value)

/-- Result and backoff delays of the retryWithBackoff loop, starting at a given
attempt number with a given number of loop iterations left.  The attempt
outcomes are abstracted as a function from the (1-based) attempt number to an
Except value.  Returns the propagated outcome (`none` models the undefined
value a JavaScript caller would see if the loop exited without returning,
reachable only when maxRetries is 0) together with the list of delays awaited
between attempts, each `baseDelay * 2 ^ (attempt - 1)`. -/
def retryFrom (ε α : Type) (fn : Nat → Except ε α) (maxRetries baseDelay : Nat) :
    Nat → Nat → Option (Except ε α) × List Nat
  | _, 0 => (none, [])
  | attempt, remaining + 1 =>
    match fn attempt with
    | Except.ok a => (some (Except.ok a), [])
    | Except.error e =>
      if attempt = maxRetries then (some (Except.error e), [])
      else
        let rest := retryFrom ε α fn maxRetries baseDelay (attempt + 1) remaining
        (rest.1, baseDelay * 2 ^ (attempt - 1) :: rest.2)

/-- retryWithBackoff from the source: a loop over attempt = 1..maxRetries that
returns the first successful result, rethrows the error of the final attempt,
and otherwise awaits `baseDelay * Math.pow(2, attempt - 1)` before retrying. -/
def retryWithBackoff (ε α : Type) (fn : Nat → Except ε α)
    (maxRetries baseDelay : Nat) : Option (Except ε α) × List Nat :=
  retryFrom ε α fn maxRetries baseDelay 1 maxRetries

/-- State of the debounced quantity-update path: the pending timers of
`quantityUpdateTimeouts` (at most one per productId, holding the quantity
captured by the scheduled closure) and the update-quantity network calls
issued so far, in order. -/
structure DebounceState where
  pending : List (String × ℤ)
  sentCalls : List (String × ℤ)
  deriving DecidableEq

/-- One call of debouncedQuantityUpdate(productId, newQuantity): any existing
timeout for this productId is cleared (`clearTimeout`), and a new timer
holding newQuantity is installed under the same key. -/
def dbCall (s : DebounceState) (pid : String) (q : ℤ) : DebounceState :=
  { pending := (pid, q) :: s.pending.filter (fun e => !(e.1 == pid))
    sentCalls := s.sentCalls }

/-- The 500 ms timer for a productId fires: the scheduled closure issues one
POST /cart/update-quantity carrying the quantity it captured, and the timeout
entry for the key is deleted. -/
def dbFire (s : DebounceState) (pid : String) : DebounceState :=
  match s.pending.find? (fun e => e.1 == pid) with
  | some e =>
    { pending := s.pending.filter (fun e2 => !(e2.1 == pid))
      sentCalls := s.sentCalls ++ [(pid, e.2)] }
  | none => s

/-- Kinds of cart mutations that can be outstanding for a productId. -/
inductive MutationKind
  | SET_QUANTITY
  | REMOVE
  | SET_MODALITY
  deriving DecidableEq

/-- Pending mutations outstanding across the three mutation entry points:
a SET_QUANTITY entry is a pending debounce timer, a REMOVE or SET_MODALITY
entry is a started network operation that has not settled. -/
structure PendingMutations where
  pending : List (String × MutationKind)
  deriving DecidableEq

/-- debouncedQuantityUpdate clears the prior quantity timer for the same
productId before installing a new one; it touches no other pending mutation. -/
def startQuantityTimer (s : PendingMutations) (pid : String) : PendingMutations :=
  ⟨(pid, MutationKind.SET_QUANTITY) ::
    s.pending.filter (fun e => !(e.1 == pid && e.2 == MutationKind.SET_QUANTITY))⟩

/-- removeFromCart starts its retried POST /cart/remove immediately; it never
consults or clears `quantityUpdateTimeouts`, so every previously pending
mutation stays pending. -/
def startRemove (s : PendingMutations) (pid : String) : PendingMutations :=
  ⟨(pid, MutationKind.REMOVE) :: s.pending⟩

/-- toggleItemModality starts its POST /cart/update-modality immediately; it
never consults or clears `quantityUpdateTimeouts`, so every previously pending
mutation stays pending. -/
def startModalityChange (s : PendingMutations) (pid : String) : PendingMutations :=
  ⟨(pid, MutationKind.SET_MODALITY) :: s.pending⟩

/-- Filter value read at the top of renderCart:
`localStorage.getItem('cartModalityFilter') || 'ALL'` (a missing key reads as
null, and null and the empty string are both falsy). -/
def effFilter (stored : Option String) : String :=
  match stored with
  | none => "ALL"
  | some s => if s = "" then "ALL" else s

/-- Auto-reset check of renderCart: the stored filter is reset exactly when it
is not ALL, no item matches it, and the unfiltered cart is non-empty. -/
def filterNeedsReset (f0 : String) (allItems : List CartItem) : Bool :=
  if f0 = "ALL" then false
  else if allItems.any (itemMatchesFilter f0) then false
  else if allItems.length > 0 then true
  else false

/-- Filter-handling prefix of renderCart: reads the stored filter, auto-resets
it to ALL when the reset check fires (writing ALL back to localStorage), then
narrows the item list by the resulting filter.  Returns the effective filter
used for rendering, the localStorage value after the call, and the displayed
(filtered) item list. -/
def renderCartView (stored : Option String) (allItems : List CartItem) :
    String × Option String × List CartItem :=
  let f0 := effFilter stored
  let doReset := filterNeedsReset f0 allItems
  let f1 := if doReset then "ALL" else f0
  let stored1 := if doReset then some "ALL" else stored
  (f1, stored1, applyFilter f1 allItems)

/-- Auth gate used by the quick-add path:
`result && result.data && (result.data.authenticated || result.data.token_valid)`,
with any thrown error mapped to false.  The outer `Option` models a missing or
failed response, the inner one a response without a data field. -/
structure AuthStatusData where
  authenticated : Bool
  token_valid : Bool
  deriving DecidableEq

/-- checkAuthStatusForCart from the source. -/
def checkAuthStatusForCart (result : Option (Option AuthStatusData)) : Bool :=
  match result with
  | some (some d) => d.authenticated || d.token_valid
  | _ => false

/-- The two add-item entry points of the cart UI. -/
inductive AddPath
  | QUICK
  | MANUAL
  deriving DecidableEq

/-- Cart network calls issued and whether an authentication prompt was raised,
for one add-item request on either entry point.  From the source:
quickAddToCart checks checkAuthStatusForCart first and, when it is false,
shows a blocking toast, opens the auth modal, and returns before any cart
request; addToCart (the manual form) validates only that a product id was
entered and issues POST /cart/add without ever consulting the auth status. -/
def addItemRun (path : AddPath) (authResult : Option (Option AuthStatusData))
    (productId : String) : List String × Bool :=
  match path with
  | AddPath.QUICK =>
    if checkAuthStatusForCart authResult then (["/api/cart/add"], false)
    else ([], true)
  | AddPath.MANUAL =>
    if productId = "" then ([], false)
    else (["/api/cart/add"], false)

/-- Replace the modality field of a cart item. -/
def withModality (i : CartItem) (m : Option String) : CartItem :=
  ⟨i.product_id, i.quantity, m, i.pricing⟩

/-- Fulfillment icon rendered for a cart item:
`(item.modality || 'PICKUP') === 'PICKUP' ? '🚗' : '🚚'`. -/
def fulfillmentIcon (i : CartItem) : String :=
  if effModality i == "PICKUP" then "🚗" else "🚚"

/-- Modality passed by renderCart to the toggle handler:
`toggleItemModality('...', '$\x7bitem.modality || 'PICKUP'\x7d')`. -/
def toggleArgOf (i : CartItem) : String := effModality i

/-- Modality the toggle handler will request for the item. -/
def toggleNewModality (i : CartItem) : String := flipModality (toggleArgOf i)

/-- Pickup option count of the filter dropdown:
`allCartItems.filter(item => (item.modality || 'PICKUP') === 'PICKUP').length`. -/
def pickupCount (items : List CartItem) : Nat :=
  (items.filter (fun i => effModality i == "PICKUP")).length

/-- Delivery option count of the filter dropdown:
`allCartItems.filter(item => (item.modality || 'PICKUP') === 'DELIVERY').length`. -/
def deliveryCount (items : List CartItem) : Nat :=
  (items.filter (fun i => effModality i == "DELIVERY")).length

/-- C1: for a cart with exactly one item priced regular 5.00 and sale 4.00,
on sale, quantity 2, the totals over the ALL filter are subtotal 8.00 and
savings 2.00, but the displayed Estimated Total is subtotal minus savings,
6.00 — not the claimed 8.00: the code subtracts the savings from a subtotal
that already uses the sale price. -/
theorem C1_totals_scenario_eval :
    computeTotals "ALL" [c1Item] =
      { itemCount := 1, subtotal := 8, savings := 2, total := 6 } ∧
    (computeTotals "ALL" [c1Item]).total ≠ 8 := by
  have h : computeTotals "ALL" [c1Item] = ⟨1, 8, 2, 6⟩ := by
    simp [computeTotals, applyFilter, cartSubtotal, cartSavings, itemSubtotal,
      itemSavings, effSale, effRegular, effPricing, effQuantity, c1Item, emptyPricing]
    norm_num
  refine ⟨h, ?_⟩
  rw [h]
  norm_num

/-- C2: when the modality toggle's network call fails, the source keeps the
optimistic flip: starting from PICKUP, the displayed modality is DELIVERY
while the server still holds PICKUP, and only one network attempt was ever
made — there is no retry and no rollback to the pre-mutation value. -/
theorem C2_no_modality_rollback_eval :
    toggleItemModalityRun "PICKUP" false =
      { displayedModality := "DELIVERY", serverModality := "PICKUP", attemptsMade := 1 } ∧
    (toggleItemModalityRun "PICKUP" false).displayedModality ≠ "PICKUP" ∧
    (toggleItemModalityRun "PICKUP" false).displayedModality ≠
      (toggleItemModalityRun "PICKUP" false).serverModality := by
  decide

/-- C3: the stored quantity after a set-quantity operation is the server clamp
of the requested quantity to the interval from 1 to 99; requesting 150 stores
99 and requesting 0 stores 1.  The productId plays no role in the clamp. -/
theorem C3_quantity_clamped :
    (∀ q : ℤ, 1 ≤ setQuantityStored q ∧ setQuantityStored q ≤ 99) ∧
    setQuantityStored 150 = 99 ∧ setQuantityStored 0 = 1 := by
  refine ⟨fun q => ⟨?_, ?_⟩, ?_, ?_⟩ <;>
    simp [setQuantityStored, serverStoreQuantity]

/-- C5: retryWithBackoff with maxAttempts 3 and base delay 1000 ms runs the
first attempt immediately; a success at attempt k returns that attempt's
result after the delays 1000 * 2 ^ (j - 1) for each failed attempt j < k
(1000 ms after attempt 1, 2000 ms after attempt 2); and when all three
attempts fail, the error of the third attempt is propagated to the caller. -/
theorem C5_retry_backoff (ε α : Type) (fn : Nat → Except ε α) :
    (∀ a, fn 1 = Except.ok a →
      retryWithBackoff ε α fn 3 1000 = (some (Except.ok a), [])) ∧
    (∀ e a, fn 1 = Except.error e → fn 2 = Except.ok a →
      retryWithBackoff ε α fn 3 1000 = (some (Except.ok a), [1000])) ∧
    (∀ e₁ e₂ a, fn 1 = Except.error e₁ → fn 2 = Except.error e₂ →
      fn 3 = Except.ok a →
      retryWithBackoff ε α fn 3 1000 = (some (Except.ok a), [1000, 2000])) ∧
    (∀ e₁ e₂ e₃, fn 1 = Except.error e₁ → fn 2 = Except.error e₂ →
      fn 3 = Except.error e₃ →
      retryWithBackoff ε α fn 3 1000 = (some (Except.error e₃), [1000, 2000])) := by
  refine ⟨?_, ?_, ?_, ?_⟩
  · intro a h1
    simp [retryWithBackoff, retryFrom, h1]
  · intro e a h1 h2
    simp [retryWithBackoff, retryFrom, h1, h2]
  · intro e₁ e₂ a h1 h2 h3
    simp [retryWithBackoff, retryFrom, h1, h2, h3]
  · intro e₁ e₂ e₃ h1 h2 h3
    simp [retryWithBackoff, retryFrom, h1, h2, h3]

/-- Folding debounced calls never issues a network call by itself. -/
lemma dbCall_foldl_sentCalls (pid : String) (qs : List ℤ) (s : DebounceState) :
    (qs.foldl (fun s q => dbCall s pid q) s).sentCalls = s.sentCalls := by
  induction qs generalizing s with
  | nil => rfl
  | cons q rest ih => rw [List.foldl_cons, ih]; rfl

/-- After a nonempty burst of debounced calls for one key, the pending timer
for that key holds the quantity of the last call. -/
lemma dbCall_foldl_find (pid : String) (qs : List ℤ) (s : DebounceState) (h : qs ≠ []) :
    ((qs.foldl (fun s q => dbCall s pid q) s).pending.find? (fun e => e.1 == pid))
      = some (pid, qs.getLast h) := by
  induction qs generalizing s with
  | nil => exact absurd rfl h
  | cons q rest ih =>
    cases rest with
    | nil => simp [dbCall, List.find?]
    | cons q' rest' =>
      rw [List.foldl_cons, ih (dbCall s pid q) (by simp)]
      simp [List.getLast_cons]

/-- C4: within one debounce window, a nonempty burst of set-quantity calls for
the same productId followed by the firing of its timer issues exactly one
update-quantity network call, carrying the quantity of the last call of the
burst; and each new call leaves exactly one pending timer for the key, holding
the new quantity (the prior timer is cancelled and replaced). -/
theorem C4_debounce_last_quantity (pid : String) (qs : List ℤ) (s₀ : DebounceState)
    (h : qs ≠ []) :
    (dbFire (qs.foldl (fun s q => dbCall s pid q) s₀) pid).sentCalls
      = s₀.sentCalls ++ [(pid, qs.getLast h)] ∧
    ∀ (s : DebounceState) (q : ℤ),
      (dbCall s pid q).pending.filter (fun e => e.1 == pid) = [(pid, q)] := by
  constructor
  · simp [dbFire, dbCall_foldl_find pid qs s₀ h, dbCall_foldl_sentCalls]
  · intro s q
    simp [dbCall, List.filter_filter]

/-- Witness for C4 at the concrete burst 2, 5, 3 on product p1 from the empty
state: exactly the single network call carrying quantity 3 is issued. -/
theorem C4_debounce_last_quantity_witness :
    ([2, 5, 3] : List ℤ) ≠ [] ∧
    (dbFire (([2, 5, 3] : List ℤ).foldl (fun s q => dbCall s "p1" q) ⟨[], []⟩) "p1").sentCalls
      = [("p1", 3)] := by
  refine ⟨by decide, ?_⟩
  have h := (C4_debounce_last_quantity "p1" [2, 5, 3] ⟨[], []⟩ (by decide)).1
  simpa using h

/-- C6 counterexample: a debounced quantity update on product p1 immediately
followed by a remove on p1 leaves a pending SET_QUANTITY timer and a pending
REMOVE operation outstanding for the same key at the same time — two pending
mutations of different kinds, which the claim says cannot happen. -/
theorem C6_cross_kind_pending_counterexample :
    ("p1", MutationKind.SET_QUANTITY)
        ∈ (startRemove (startQuantityTimer ⟨[]⟩ "p1") "p1").pending ∧
    ("p1", MutationKind.REMOVE)
        ∈ (startRemove (startQuantityTimer ⟨[]⟩ "p1") "p1").pending ∧
    MutationKind.SET_QUANTITY ≠ MutationKind.REMOVE := by
  decide

/-- C6 amended: only same-kind coalescing holds.  A new debounced quantity
intent cancels and replaces the prior pending quantity timer for its key
(leaving exactly one SET_QUANTITY entry for that key), while remove and
modality mutations start without cancelling anything: every previously
pending mutation, of any kind, stays pending. -/
theorem C6_amended_same_kind_coalescing (s : PendingMutations) (pid : String) :
    (startQuantityTimer s pid).pending.filter
        (fun e => e.1 == pid && e.2 == MutationKind.SET_QUANTITY)
      = [(pid, MutationKind.SET_QUANTITY)] ∧
    (startRemove s pid).pending = (pid, MutationKind.REMOVE) :: s.pending ∧
    (startModalityChange s pid).pending = (pid, MutationKind.SET_MODALITY) :: s.pending := by
  refine ⟨?_, rfl, rfl⟩
  simp [startQuantityTimer, List.filter_filter]

/-- Witness for C5 at a concrete attempt sequence: the first attempt fails,
the second succeeds, so the helper returns the second result after one
1000 ms delay. -/
theorem C5_retry_backoff_witness :
    retryWithBackoff Nat Nat (fun k => if k = 1 then Except.error 0 else Except.ok 7)
      3 1000 = (some (Except.ok 7), [1000]) :=
  (C5_retry_backoff Nat Nat (fun k => if k = 1 then Except.error 0 else Except.ok 7)).2.1
    0 7 rfl rfl

/-- The PICKUP arm of the filter predicate. -/
lemma itemMatchesFilter_pickup :
    itemMatchesFilter "PICKUP" = fun i => effModality i == "PICKUP" := by
  funext i
  simp [itemMatchesFilter]

/-- The DELIVERY arm of the filter predicate. -/
lemma itemMatchesFilter_delivery :
    itemMatchesFilter "DELIVERY" = fun i => effModality i == "DELIVERY" := by
  funext i
  simp [itemMatchesFilter]

/-- When the reset check does not fire on a non-empty cart, either the filter
is ALL or some item matches it. -/
lemma of_filterNeedsReset_false (f0 : String) (items : List CartItem)
    (hlen : 0 < items.length) (h : filterNeedsReset f0 items = false) :
    f0 = "ALL" ∨ items.any (itemMatchesFilter f0) = true := by
  unfold filterNeedsReset at h
  split_ifs at h with h1 h2
  · exact Or.inl h1
  · exact Or.inr h2

/-- A list with a matching element filters to a non-empty list. -/
lemma filter_ne_nil_of_any (p : CartItem → Bool) (items : List CartItem)
    (h : items.any p = true) : items.filter p ≠ [] := by
  rcases List.any_eq_true.mp h with ⟨x, hx, hpx⟩
  exact List.ne_nil_of_mem (List.mem_filter.mpr ⟨hx, hpx⟩)

/-- C7: when the cart is rendered with a non-empty item list under a stored
PICKUP or DELIVERY filter that matches no item, the filter is reset to ALL in
the rendered view and in localStorage and every item is displayed; and in
general, whatever filter is stored, rendering a non-empty cart never displays
an empty list. -/
theorem C7_filter_autoreset (f : String) (items : List CartItem)
    (hf : f = "PICKUP" ∨ f = "DELIVERY")
    (hne : items ≠ [])
    (hnm : items.any (itemMatchesFilter f) = false) :
    renderCartView (some f) items = ("ALL", some "ALL", items) ∧
    ∀ stored : Option String, (renderCartView stored items).2.2 ≠ [] := by
  have hlen : 0 < items.length := List.length_pos.mpr hne
  constructor
  · rcases hf with hf | hf <;> subst hf <;>
      simp [renderCartView, effFilter, filterNeedsReset, applyFilter, hnm, hlen]
  · intro stored
    by_cases hr : filterNeedsReset (effFilter stored) items = true
    · simp [renderCartView, hr, applyFilter, hne]
    · have hr' : filterNeedsReset (effFilter stored) items = false :=
        Bool.eq_false_iff.mpr hr
      rcases of_filterNeedsReset_false (effFilter stored) items hlen hr' with hall | hany
      · simp [renderCartView, hr', hall, applyFilter, hne]
      · by_cases hp : effFilter stored = "PICKUP"
        · rw [hp] at hany hr'
          have hfil := filter_ne_nil_of_any (fun i => effModality i == "PICKUP") items
            (by rw [itemMatchesFilter_pickup] at hany; exact hany)
          simp [renderCartView, hp, hr', applyFilter, hfil]
        · by_cases hd : effFilter stored = "DELIVERY"
          · rw [hd] at hany hr'
            have hfil := filter_ne_nil_of_any (fun i => effModality i == "DELIVERY") items
              (by rw [itemMatchesFilter_delivery] at hany; exact hany)
            simp [renderCartView, hd, hr', applyFilter, hfil]
          · simp [renderCartView, hr', applyFilter, hp, hd, hne]

/-- Witness for C7: one DELIVERY item under a stored PICKUP filter: the filter
resets to ALL and the item is shown. -/
theorem C7_filter_autoreset_witness :
    (("PICKUP" : String) = "PICKUP" ∨ ("PICKUP" : String) = "DELIVERY") ∧
    ([⟨"d1", some 1, some "DELIVERY", none⟩] : List CartItem) ≠ [] ∧
    ([(⟨"d1", some 1, some "DELIVERY", none⟩ : CartItem)].any
        (itemMatchesFilter "PICKUP") = false) ∧
    renderCartView (some "PICKUP") [⟨"d1", some 1, some "DELIVERY", none⟩]
      = ("ALL", some "ALL", [⟨"d1", some 1, some "DELIVERY", none⟩]) := by
  have h1 : (("PICKUP" : String) = "PICKUP" ∨ ("PICKUP" : String) = "DELIVERY") :=
    Or.inl rfl
  have h2 : ([⟨"d1", some 1, some "DELIVERY", none⟩] : List CartItem) ≠ [] := by
    simp
  have h3 : ([(⟨"d1", some 1, some "DELIVERY", none⟩ : CartItem)].any
      (itemMatchesFilter "PICKUP") = false) := by
    simp [itemMatchesFilter, effModality]
  exact ⟨h1, h2, h3,
    (C7_filter_autoreset "PICKUP" [⟨"d1", some 1, some "DELIVERY", none⟩] h1 h2 h3).1⟩

/-- C8 counterexample: with the auth collaborator reporting unauthenticated
(no successful status response at all), the manual add-item form still issues
the POST /cart/add network call for a non-empty product id — so not every
add-item entry point aborts before the cart network call when
unauthenticated. -/
theorem C8_manual_add_skips_auth_counterexample :
    checkAuthStatusForCart none = false ∧
    addItemRun AddPath.MANUAL none "0001111042248" = (["/api/cart/add"], false) := by
  constructor
  · rfl
  · simp [addItemRun]

/-- C8 amended: the quick-add path aborts before any cart network call and
raises the authentication prompt whenever the auth collaborator reports the
user unauthenticated; the manual add form, however, never consults the auth
status — its behavior is identical for every auth result. -/
theorem C8_amended_quick_add_auth_gate (authResult : Option (Option AuthStatusData))
    (pid : String) (h : checkAuthStatusForCart authResult = false) :
    addItemRun AddPath.QUICK authResult pid = ([], true) ∧
    ∀ (a b : Option (Option AuthStatusData)),
      addItemRun AddPath.MANUAL a pid = addItemRun AddPath.MANUAL b pid := by
  constructor
  · simp [addItemRun, h]
  · intro a b
    rfl

/-- Witness for the amended C8: with no auth response, the quick-add path
issues no cart call and prompts for authentication. -/
theorem C8_amended_quick_add_auth_gate_witness :
    checkAuthStatusForCart none = false ∧
    addItemRun AddPath.QUICK none "0001111042248" = ([], true) :=
  ⟨rfl, (C8_amended_quick_add_auth_gate none "0001111042248" rfl).1⟩

/-- Items whose modality field literally holds PICKUP or DELIVERY split any
per-item sum into its PICKUP and DELIVERY parts. -/
lemma sum_map_modality_split (g : CartItem → ℚ) (items : List CartItem)
    (h : ∀ i ∈ items, i.modality = some "PICKUP" ∨ i.modality = some "DELIVERY") :
    (((items.filter (fun i => effModality i == "PICKUP")).map g).sum
        + ((items.filter (fun i => effModality i == "DELIVERY")).map g).sum)
      = ((items.map g).sum) := by
  induction items with
  | nil => simp
  | cons i rest ih =>
    have hrest : ∀ j ∈ rest, j.modality = some "PICKUP" ∨ j.modality = some "DELIVERY" :=
      fun j hj => h j (List.mem_cons_of_mem i hj)
    rcases h i (List.mem_cons_self i rest) with hi | hi
    · have hm : effModality i = "PICKUP" := by simp [effModality, hi]
      simp [List.filter_cons, hm, ← ih hrest]
      ring
    · have hm : effModality i = "DELIVERY" := by simp [effModality, hi]
      simp [List.filter_cons, hm, ← ih hrest]
      ring

/-- Items whose modality field literally holds PICKUP or DELIVERY split the
item count into its PICKUP and DELIVERY parts. -/
lemma length_modality_split (items : List CartItem)
    (h : ∀ i ∈ items, i.modality = some "PICKUP" ∨ i.modality = some "DELIVERY") :
    ((items.filter (fun i => effModality i == "PICKUP")).length
        + (items.filter (fun i => effModality i == "DELIVERY")).length)
      = items.length := by
  induction items with
  | nil => simp
  | cons i rest ih =>
    have hrest : ∀ j ∈ rest, j.modality = some "PICKUP" ∨ j.modality = some "DELIVERY" :=
      fun j hj => h j (List.mem_cons_of_mem i hj)
    rcases h i (List.mem_cons_self i rest) with hi | hi
    · have hm : effModality i = "PICKUP" := by simp [effModality, hi]
      simp [List.filter_cons, hm, ← ih hrest]
      ring
    · have hm : effModality i = "DELIVERY" := by simp [effModality, hi]
      simp [List.filter_cons, hm, ← ih hrest]
      ring

/-- C9: when every item's modality field is PICKUP or DELIVERY, the totals
computed over the ALL filter are the componentwise sum of the totals computed
over the PICKUP filter and over the DELIVERY filter: item count, subtotal,
savings and displayed total all add up. -/
theorem C9_totals_additive (items : List CartItem)
    (h : ∀ i ∈ items, i.modality = some "PICKUP" ∨ i.modality = some "DELIVERY") :
    computeTotals "ALL" items
      = addTotals (computeTotals "PICKUP" items) (computeTotals "DELIVERY" items) := by
  have hsub := sum_map_modality_split itemSubtotal items h
  have hsav := sum_map_modality_split itemSavings items h
  have hlen := length_modality_split items h
  simp [computeTotals, addTotals, applyFilter, cartSubtotal, cartSavings, Totals.mk.injEq]
  refine ⟨hlen.symm, hsub.symm, hsav.symm, ?_⟩
  rw [← hsub, ← hsav]
  ring

/-- The PICKUP item of the C9 witness cart: regular price 3.00, quantity 1. -/
def c9ItemP : CartItem := ⟨"p1", some 1, some "PICKUP", some ⟨some 3, none, false⟩⟩

/-- The DELIVERY item of the C9 witness cart: regular 5.00, sale 4.00,
on sale, quantity 2. -/
def c9ItemD : CartItem := ⟨"d1", some 2, some "DELIVERY", some ⟨some 5, some 4, true⟩⟩

/-- Witness for C9 on a concrete two-item cart with one PICKUP and one
DELIVERY item. -/
theorem C9_totals_additive_witness :
    (∀ i ∈ [c9ItemP, c9ItemD],
        i.modality = some "PICKUP" ∨ i.modality = some "DELIVERY") ∧
    computeTotals "ALL" [c9ItemP, c9ItemD]
      = addTotals (computeTotals "PICKUP" [c9ItemP, c9ItemD])
          (computeTotals "DELIVERY" [c9ItemP, c9ItemD]) := by
  have hp : ∀ i ∈ [c9ItemP, c9ItemD],
      i.modality = some "PICKUP" ∨ i.modality = some "DELIVERY" := by
    intro i hi
    simp only [List.mem_cons, List.not_mem_nil, or_false] at hi
    rcases hi with rfl | rfl
    · exact Or.inl rfl
    · exact Or.inr rfl
  exact ⟨hp, C9_totals_additive [c9ItemP, c9ItemD] hp⟩

/-- C10: an item whose modality field is absent (or the falsy empty string) is
treated by every modality-sensitive cart operation exactly like an item whose
modality is PICKUP: its effective modality is PICKUP; it matches every filter
value the same way; it renders the same fulfillment icon; the modality toggle
requests the same new modality; and the pickup and delivery option counts and
the auto-reset check are unchanged when it is replaced in any cart position by
the same item with modality PICKUP. -/
theorem C10_absent_modality_is_pickup (i : CartItem)
    (h : i.modality = none ∨ i.modality = some "") :
    effModality i = "PICKUP" ∧
    (∀ f, itemMatchesFilter f i = itemMatchesFilter f (withModality i (some "PICKUP"))) ∧
    fulfillmentIcon i = fulfillmentIcon (withModality i (some "PICKUP")) ∧
    toggleNewModality i = toggleNewModality (withModality i (some "PICKUP")) ∧
    (∀ pre post, pickupCount (pre ++ i :: post)
        = pickupCount (pre ++ withModality i (some "PICKUP") :: post)) ∧
    (∀ pre post, deliveryCount (pre ++ i :: post)
        = deliveryCount (pre ++ withModality i (some "PICKUP") :: post)) ∧
    (∀ f0 pre post, filterNeedsReset f0 (pre ++ i :: post)
        = filterNeedsReset f0 (pre ++ withModality i (some "PICKUP") :: post)) := by
  have hm : effModality i = "PICKUP" := by
    rcases h with h | h <;> simp [effModality, h]
  have hm' : effModality (withModality i (some "PICKUP")) = "PICKUP" := by
    simp [effModality, withModality]
  have hmatch : ∀ f, itemMatchesFilter f i
      = itemMatchesFilter f (withModality i (some "PICKUP")) := by
    intro f
    simp [itemMatchesFilter, hm, hm']
  refine ⟨hm, hmatch, ?_, ?_, ?_, ?_, ?_⟩
  · simp [fulfillmentIcon, hm, hm']
  · simp [toggleNewModality, toggleArgOf, flipModality, hm, hm']
  · intro pre post
    simp [pickupCount, List.filter_append, List.filter_cons, hm, hm']
  · intro pre post
    simp [deliveryCount, List.filter_append, List.filter_cons, hm, hm']
  · intro f0 pre post
    simp [filterNeedsReset, List.any_append, List.any_cons, hmatch f0]

/-- The modality-less item of the C10 witness. -/
def c10Item : CartItem := ⟨"x1", some 1, none, none⟩

/-- Witness for C10: a concrete item without a modality field is filtered
under the DELIVERY filter exactly like its PICKUP-modality copy. -/
theorem C10_absent_modality_is_pickup_witness :
    (c10Item.modality = none ∨ c10Item.modality = some "") ∧
    effModality c10Item = "PICKUP" ∧
    itemMatchesFilter "DELIVERY" c10Item
      = itemMatchesFilter "DELIVERY" (withModality c10Item (some "PICKUP")) := by
  have h : c10Item.modality = none ∨ c10Item.modality = some "" := Or.inl rfl
  have hc := C10_absent_modality_is_pickup c10Item h
  exact ⟨h, hc.1, hc.2.1 "DELIVERY"⟩
